import Mathlib

/-!
# Verification of `src/core/block_menu.js` (Blockly.BlockMenu)

Shallow embedding of the block-menu (palette/flyout) widget from
`src/core/block_menu.js`.  DOM events are modelled as records carrying the
fields the code reads; listener handles, blocks and hit-region rectangles are
modelled as tagged values; screen coordinates are rationals.  External Blockly
helpers (`isRightButton`, `getSvgXY_`, `bindEvent_`, numeric constants such as
`DRAG_RADIUS`, `CORNER_RADIUS`, `TAB_WIDTH`, `scrollbarThickness`) are not in
the given sources, so they appear as parameters or as fields of the modelled
events and states.
-/

namespace BlockMenu

/-- A DOM mouse event, carrying the fields `block_menu.js` reads:
`type`, `clientX`, `clientY`, `button`, and the result of the external
predicate `Blockly.isRightButton(e)`. -/
structure MEvent where
  etype : String
  clientX : Int
  clientY : Int
  button : Nat
  rightButton : Bool
deriving DecidableEq, Repr

/-- A screen/canvas position (the result of `Blockly.getSvgXY_`). -/
structure Point where
  x : ℚ
  y : ℚ
deriving DecidableEq, Repr

/-! ## Block creation (`createBlockFunc_`, lines 280-326) and
     pending-drag mouse moves (`onMouseMove_`, lines 251-272) -/

/-- The origin block in the menu that the handler returned by
`createBlockFunc_` closes over: its `disabled` flag, the screen position of
its SVG root (`none` when `getSvgRoot()` is falsy, i.e. not rendered), and its
XML serialisation (`Blockly.Xml.blockToDom_`). -/
structure OriginBlock where
  disabled : Bool
  svgRoot : Option Point
  xml : String
deriving DecidableEq, Repr

/-- The artifacts produced by a successful run of the handler returned by
`createBlockFunc_`: the clone placed in the menu workspace, the clone placed
on `Blockly.mainWorkspace`, the recorded drag start, the stalker link
(`block.setStalkerBlock(workspaceBlock)`), and the event forwarded to
`block.onMouseDown_(e)` which starts the drag. -/
structure CreatedDrag where
  menuBlockXml : String
  menuBlockPos : Point
  workspaceBlockXml : String
  workspaceBlockPos : Point
  startDragX : ℚ
  startDragY : ℚ
  stalkerAttached : Bool
  mouseDownEvent : MEvent
deriving DecidableEq, Repr

/-- `Blockly.BlockMenu.prototype.createBlockFunc_` (the closure it returns),
lines 282-325.  `xyNew` and `xyNewWorkspace` are the screen positions
`Blockly.getSvgXY_` reports for the freshly instantiated menu-workspace clone
and main-workspace clone (`none` models a falsy `getSvgRoot()`).  The JS
closure mutates the DOM and throws strings; here it returns
`Except String (Option CreatedDrag)`: `.ok none` for the guard returns
(right-click / disabled origin) where nothing is created and no state is
touched, `.error s` for `throw s`, `.ok (some d)` for a successful creation.
`Entry.dispatchEvent` (line 292-294) happens after both guards and carries no
state relevant here. -/
def createBlockFunc_ (originBlock : OriginBlock) (e : MEvent)
    (xyNew xyNewWorkspace : Option Point) : Except String (Option CreatedDrag) :=
  if e.rightButton then
    -- Right-click.  Don't create a block, let the context menu show.
    .ok none
  else if originBlock.disabled then
    -- Beyond capacity.
    .ok none
  else
    match originBlock.svgRoot with
    | none => .error "originBlock is not rendered."
    | some xyOld =>
      match xyNew with
      | none => .error "block is not rendered."
      | some pNew =>
        match xyNewWorkspace with
        | none => .error "block is not rendered."
        | some pW =>
          -- stalkerX/Y, line 317-318
          let stalkerX := xyOld.x - pW.x - 202
          let stalkerY := xyOld.y - pW.y + 33
          .ok (some
            { menuBlockXml := originBlock.xml
              -- block.moveBy(xyOld.x - xyNew.x, xyOld.y - xyNew.y), line 309
              menuBlockPos := ⟨pNew.x + (xyOld.x - pNew.x), pNew.y + (xyOld.y - pNew.y)⟩
              workspaceBlockXml := originBlock.xml
              -- workspaceBlock.moveBy(stalkerX, stalkerY), line 319
              workspaceBlockPos := ⟨pW.x + stalkerX, pW.y + stalkerY⟩
              startDragX := stalkerX
              startDragY := stalkerY
              stalkerAttached := true
              mouseDownEvent := e })

/-- The rogue-touch signature filtered out at the top of `onMouseMove_`
(lines 252-261): Safari Mobile / Chrome for Android fire mousemove events
with `clientX <= 1 && clientY == 0 && button == 0`; such events are ignored. -/
def isRogueMove (e : MEvent) : Bool :=
  e.etype == "mousemove" && e.clientX ≤ 1 && e.clientY == 0 && e.button == 0

/-- Squared displacement between the recorded mouse-down event and the move
event (lines 263-266).  The code compares `Math.sqrt(dx^2 + dy^2)` with
`Blockly.DRAG_RADIUS`; since both sides are nonnegative, `dr > DRAG_RADIUS`
holds exactly when `dx^2 + dy^2 > DRAG_RADIUS^2`, which is how the threshold
test is phrased below. -/
def dragDistSq (startE e : MEvent) : Int :=
  (e.clientX - startE.clientX) ^ 2 + (e.clientY - startE.clientY) ^ 2

/-- `Blockly.BlockMenu.prototype.onMouseMove_`, lines 251-272, composed with
the creation handler it invokes.  `dragRadius` models the external constant
`Blockly.DRAG_RADIUS` (a nonnegative number); `startE` is
`Blockly.BlockMenu.startDownEvent_`, `origin` is
`Blockly.BlockMenu.startBlock_`.  On an over-threshold move the handler
`createBlockFunc_(startBlock_)` is invoked on the recorded mouse-DOWN event
(line 269-270), not on the move event. -/
def onMouseMove_ (dragRadius : Nat) (startE e : MEvent) (origin : OriginBlock)
    (xyNew xyNewWorkspace : Option Point) : Except String (Option CreatedDrag) :=
  if isRogueMove e then .ok none
  else if dragDistSq startE e > (dragRadius : Int) ^ 2 then
    createBlockFunc_ origin startE xyNew xyNewWorkspace
  else .ok none

/-- Successful-path characterisation of the `createBlockFunc_` handler, shared
by several theorems below. -/
lemma createBlockFunc_ok (ob : OriginBlock) (e : MEvent) (xyOld pNew pW : Point)
    (hrb : e.rightButton = false) (hdis : ob.disabled = false)
    (hroot : ob.svgRoot = some xyOld) :
    createBlockFunc_ ob e (some pNew) (some pW) =
      .ok (some
        { menuBlockXml := ob.xml
          menuBlockPos := ⟨pNew.x + (xyOld.x - pNew.x), pNew.y + (xyOld.y - pNew.y)⟩
          workspaceBlockXml := ob.xml
          workspaceBlockPos := ⟨pW.x + (xyOld.x - pW.x - 202), pW.y + (xyOld.y - pW.y + 33)⟩
          startDragX := xyOld.x - pW.x - 202
          startDragY := xyOld.y - pW.y + 33
          stalkerAttached := true
          mouseDownEvent := e }) := by
  simp [createBlockFunc_, hrb, hdis, hroot]

/-! ## Scroll metrics (`getMetrics_`, lines 371-389, and `setMetrics_`,
     lines 397-410) -/

/-- The bounding box of the menu workspace canvas
(`this.workspace_.getCanvas().getBBox()`): the fields the code reads. -/
structure BBox where
  height : ℚ
  y : ℚ
deriving DecidableEq, Repr

/-- The view div's bounding client rect: the fields the code reads. -/
structure ViewRect where
  height : ℚ
  width : ℚ
deriving DecidableEq, Repr

/-- The metrics object built by `getMetrics_`. -/
structure Metrics where
  viewHeight : ℚ
  viewWidth : ℚ
  contentHeight : ℚ
  viewTop : ℚ
  contentTop : ℚ
  absoluteTop : ℚ
  absoluteLeft : ℚ
deriving DecidableEq, Repr

/-- `Blockly.BlockMenu.prototype.getMetrics_`, lines 371-389.  The
`getBBox()` call is wrapped in `try { ... } catch (e) { var optionBox =
{height: 0, y: 0}; }` (Firefox has trouble with hidden elements, Bug 528969),
so a failing bbox query (`.error ()`) is recovered with an empty box.  The
argument `bbox` models the outcome of that query. -/
def getMetrics_ (view : ViewRect) (scrollY : ℚ) (bbox : Except Unit BBox) : Metrics :=
  let optionBox : BBox :=
    match bbox with
    | .ok b => b
    | .error _ => { height := 0, y := 0 }
  { viewHeight := view.height
    viewWidth := view.width
    contentHeight := optionBox.height + optionBox.y
    viewTop := -scrollY
    contentTop := 0
    absoluteTop := 0
    absoluteLeft := 0 }

/-- `Blockly.BlockMenu.prototype.setMetrics_`, lines 397-410.  `yRatio.y` is a
number exactly when the argument `yRatio` is `some y` (the code guards with
`goog.isNumber(yRatio.y)`).  Returns the new `workspace_.scrollY` and the `y`
component of the `translate(0, y)` transform applied to the canvas. -/
def setMetrics_ (view : ViewRect) (bbox : Except Unit BBox) (yRatio : Option ℚ)
    (scrollY : ℚ) : ℚ × ℚ :=
  let metrics := getMetrics_ view scrollY bbox
  let scrollY :=
    match yRatio with
    | some y => -metrics.contentHeight * y - metrics.contentTop
    | none => scrollY
  (scrollY, scrollY + metrics.absoluteTop)

/-! ## Reflow (`reflow`, lines 331-365) -/

/-- A hit-region rectangle (`block.blockMenuRect_`): the four attributes
`reflow` sets on it. -/
structure RRect where
  w : ℚ
  h : ℚ
  x : ℚ
  y : ℚ
deriving DecidableEq, Repr

/-- A top-level block of the menu workspace as `reflow` sees it:
`getHeightWidth()`, `getRelativeToSurfaceXY()` and the optional hit-region. -/
structure RBlock where
  width : ℚ
  height : ℚ
  x : ℚ
  y : ℚ
  rect : Option RRect
deriving DecidableEq, Repr

/-- The external constants `reflow` reads: `this.CORNER_RADIUS`,
`Blockly.BlockSvg.TAB_WIDTH`, `Blockly.Scrollbar.scrollbarThickness` (numeric
constants defined outside the given sources) and the `Blockly.RTL` flag. -/
structure ReflowEnv where
  cornerRadius : ℚ
  tabWidth : ℚ
  scrollbarThickness : ℚ
  rtl : Bool
deriving DecidableEq, Repr

/-- The state `reflow` reads and writes: the stored `this.width_` and the
top-level blocks of the menu workspace. -/
structure FlyoutState where
  width_ : ℚ
  blocks : List RBlock
deriving DecidableEq, Repr

/-- Lines 332-341: `blockMenuWidth`, the max over block widths (starting from
0) plus `margin + TAB_WIDTH + margin / 2 + scrollbarThickness` where
`margin = CORNER_RADIUS`. -/
def reflowWidth (env : ReflowEnv) (blocks : List RBlock) : ℚ :=
  blocks.foldl (fun w b => max w b.width) 0 +
    env.cornerRadius + env.tabWidth + env.cornerRadius / 2 + env.scrollbarThickness

/-- Lines 343-359, the per-block body of the repositioning loop: in RTL mode
move the block right by `blockMenuWidth - margin - TAB_WIDTH - blockXY.x`,
then (when the block has a `blockMenuRect_`) set the rectangle's width,
height, x (mirrored in RTL) and y from the block's bounding box. -/
def reflowBlock (env : ReflowEnv) (menuWidth : ℚ) (b : RBlock) : RBlock :=
  let b :=
    if env.rtl then
      let dx := menuWidth - env.cornerRadius - env.tabWidth - b.x
      { b with x := b.x + dx }
    else b
  match b.rect with
  | none => b
  | some _ =>
    let rx : ℚ := if env.rtl then b.x - b.width else b.x
    { b with rect := some ⟨b.width, b.height, rx, b.y⟩ }

/-- `Blockly.BlockMenu.prototype.reflow`, lines 331-365.  The repositioning
loop and the width store only run under `if (this.width_ != blockMenuWidth)`;
otherwise the state is left untouched. -/
def reflow (env : ReflowEnv) (st : FlyoutState) : FlyoutState :=
  let menuWidth := reflowWidth env st.blocks
  if st.width_ ≠ menuWidth then
    { width_ := menuWidth
      blocks := st.blocks.map (reflowBlock env menuWidth) }
  else st

/-! ## Pending-drag statics (`blockMouseDown_`, lines 216-242, and
     `Blockly.BlockMenu.terminateDrag_`, lines 416-428) -/

/-- The static fields on `Blockly.BlockMenu` that record a pending drag:
the two document-level listener wrappers, the mouse-down event, the pressed
block, the originating menu, and `startFlyout_` (which no code in the file
ever assigns except `terminateDrag_`, which nulls it). -/
structure DragStatics where
  onMouseUpWrapper_ : Option Nat
  onMouseMoveWrapper_ : Option Nat
  startDownEvent_ : Option MEvent
  startBlock_ : Option Nat
  startblockMenu_ : Option Nat
  startFlyout_ : Option Nat
deriving DecidableEq, Repr

/-- The closure returned by `Blockly.BlockMenu.prototype.blockMouseDown_`,
lines 218-241.  On a right-click it only shows the context menu; on a
left/middle click it records the event, the block and the menu in the statics
and binds the document-level `mouseup` (handle 0) and `mousemove` (handle 1)
wrappers. -/
def blockMouseDown_ (e : MEvent) (blockId menuId : Nat) (st : DragStatics) : DragStatics :=
  if e.rightButton then st
  else
    { st with
      startDownEvent_ := some e
      startBlock_ := some blockId
      startblockMenu_ := some menuId
      onMouseUpWrapper_ := some 0
      onMouseMoveWrapper_ := some 1 }

/-- `Blockly.BlockMenu.terminateDrag_`, lines 416-428 (bound to the
document-level `mouseup`).  It unbinds both wrappers when set and nulls
`startDownEvent_`, `startBlock_` and `startFlyout_` — note the source nulls
`Blockly.BlockMenu.startFlyout_`, not `Blockly.BlockMenu.startblockMenu_`,
which is left unchanged. -/
def terminateDrag_ (st : DragStatics) : DragStatics :=
  { st with
    onMouseUpWrapper_ := none
    onMouseMoveWrapper_ := none
    startDownEvent_ := none
    startBlock_ := none
    startFlyout_ := none }

/-! ## Vertical layout (the loop of `show`, lines 106-137) -/

/-- A block as the layout loop of `show` sees it: which of
`outputConnection`, `previousConnection`, `nextConnection` are present, and
the height reported by `getHeightWidth()`. -/
structure LBlock where
  hasOutput : Bool
  hasPrev : Bool
  hasNext : Bool
  height : ℚ
deriving DecidableEq, Repr

/-- One iteration of the layout loop, lines 120-137.  Input: the block, its
entry of `gaps`, and the current `cursorY`.  Output: the `(x, cursorY)` pair
passed to `block.moveBy` and the updated `cursorY`. -/
def layoutStep (b : LBlock) (gap cursorY : ℚ) : (ℚ × ℚ) × ℚ :=
  let x : ℚ := 10
  let xc : ℚ × ℚ :=
    if b.hasOutput then (x + b.height / 2, cursorY)
    else if !b.hasPrev && b.hasNext then (x, cursorY + 10)
    else if !b.hasPrev && !b.hasNext then (x, cursorY + 10)
    else (x, cursorY + 7)
  -- block.moveBy(x, cursorY), line 133
  let pos := xc
  -- line 134-136: trailing 10 for blocks with neither previous nor next
  let c2 := if !b.hasPrev && !b.hasNext then xc.2 + 10 else xc.2
  -- line 137: cursorY += blockHW.height + gaps[i]
  (pos, c2 + b.height + gap)

/-- The layout loop from a given `cursorY`: the list of `(x, y)` positions the
blocks are moved to. -/
def layoutFrom : List (LBlock × ℚ) → ℚ → List (ℚ × ℚ)
  | [], _ => []
  | (b, gap) :: rest, cursorY =>
    let r := layoutStep b gap cursorY
    r.1 :: layoutFrom rest r.2

/-- The layout of `show`: `cursorY` starts at 10 (line 107). -/
def layout (bs : List (LBlock × ℚ)) : List (ℚ × ℚ) := layoutFrom bs 10

/-- Closed-form x position of a laid-out block: 10, plus half the height for
blocks with an output connection. -/
def xPos (b : LBlock) : ℚ := 10 + (if b.hasOutput then b.height / 2 else 0)

/-- Closed-form leading gap of the source layout: blocks with an output
connection get none (the `if` chain takes the output branch), blocks without
an output and without a previous connection get 10, the rest get 7. -/
def leadGap (b : LBlock) : ℚ :=
  if b.hasOutput then 0 else if !b.hasPrev then 10 else 7

/-- Closed-form trailing gap of the source layout: 10 for every block lacking
both a previous and a next connection (including output blocks). -/
def trailGap (b : LBlock) : ℚ := if !b.hasPrev && !b.hasNext then 10 else 0

/-- The closed-form layout equivalent to `layoutFrom` (proved below). -/
def layoutClosed : List (LBlock × ℚ) → ℚ → List (ℚ × ℚ)
  | [], _ => []
  | (b, gap) :: rest, c =>
    (xPos b, c + leadGap b) :: layoutClosed rest (c + leadGap b + trailGap b + b.height + gap)

/-- Formalisation of claim C4's own wording of the gap rules, for comparison
with the source layout: every block lacking a previous connection gets a
leading gap of 10 (every other block 7), every block lacking both previous
and next connections gets a trailing gap of 10, and blocks with an output
connection are shifted right by half their height.  This differs from the
source for blocks with an output connection, which the source gives no
leading gap at all. -/
def claimedLeadGap (b : LBlock) : ℚ := if !b.hasPrev then 10 else 7

/-- The layout described by claim C4's wording (see `claimedLeadGap`). -/
def claimedLayoutFrom : List (LBlock × ℚ) → ℚ → List (ℚ × ℚ)
  | [], _ => []
  | (b, gap) :: rest, c =>
    (xPos b, c + claimedLeadGap b) ::
      claimedLayoutFrom rest (c + claimedLeadGap b + trailGap b + b.height + gap)

/-- The claim-C4 layout with the initial `cursorY` of 10. -/
def claimedLayout (bs : List (LBlock × ℚ)) : List (ℚ × ℚ) := claimedLayoutFrom bs 10

/-! ## Listener and block lifecycle (`show`, lines 77-181, and `hide`,
     lines 186-208) -/

/-- What kind of handler a bound listener wraps. -/
inductive LKind where
  | blockMouseDownL
  | createBlockL
  | entryL
  | reflowL
deriving DecidableEq, Repr

/-- A listener handle as returned by `Blockly.bindEvent_`: tagged with the
`show` invocation that bound it, the index of the block it was bound for, and
the kind of handler. -/
structure Listener where
  call : Nat
  idx : Nat
  kind : LKind
deriving DecidableEq, Repr

/-- A hit-region rectangle, tagged with the `show` invocation that created it
and the index of the block it sits under. -/
structure HitRect where
  call : Nat
  idx : Nat
deriving DecidableEq, Repr

/-- A block as the listener-wiring part of `show` sees it: its `type` string
(compared against the five Entry-specific types) and `isAddable()`. -/
structure SBlock where
  btype : String
  addable : Bool
deriving DecidableEq, Repr

/-- The menu state touched by `show`/`hide`: the `listeners_` and `buttons_`
arrays, the top-level blocks (paired with the id of the workspace each
belongs to), the id of the menu's own workspace, the `reflowWrapper_` slot,
and the set of currently bound listeners (`Blockly.bindEvent_` adds to it,
`Blockly.unbindEvent_` removes from it). -/
structure PanelState where
  listeners_ : List Listener
  buttons_ : List HitRect
  topBlocks : List (Nat × SBlock)
  panelWs : Nat
  reflowWrapper_ : Option Listener
  bound : List Listener
deriving DecidableEq, Repr

/-- The five block types `show` wires to Entry container callbacks,
lines 151-166. -/
def entryTypes : List String :=
  ["make_variable", "add_message", "delete_message", "remove_variable",
   "change_variable_name"]

/-- `Blockly.unbindEvent_` on the global bound set. -/
def unbind (l : Listener) (bound : List Listener) : List Listener :=
  bound.filter (fun b => b ≠ l)

/-- The effect of `hide` on the global bound set, lines 187-195: unbind every
listener recorded in `listeners_` (lines 188-190), then unbind
`reflowWrapper_` when it is set (lines 192-195). -/
def hideBound (st : PanelState) : List Listener :=
  let bound := st.listeners_.foldl (fun acc l => unbind l acc) st.bound
  match st.reflowWrapper_ with
  | some w => unbind w bound
  | none => bound

/-- `Blockly.BlockMenu.prototype.hide`, lines 186-208: unbind every listener
recorded in `listeners_` and empty it, unbind `reflowWrapper_` when set,
dispose every top block whose workspace is the menu's own workspace, remove
every hit-region rectangle and empty `buttons_`. -/
def hide (st : PanelState) : PanelState :=
  { st with
    listeners_ := []
    buttons_ := []
    reflowWrapper_ := none
    bound := hideBound st
    topBlocks := st.topBlocks.filter (fun wb => wb.1 ≠ st.panelWs) }

/-- The listener-wiring body of `show`'s per-block loop, lines 139-168, for
block `b` at index `i` during `show` invocation `c`:
append the hit-region to `buttons_` (line 145) and the new block to the menu
workspace; when `isAddable()`, bind a `blockMouseDown_` handler and push it to
`listeners_` (lines 147-150); when running under Entry and the block's type is
one of the five Entry types, bind a container callback WITHOUT pushing it to
`listeners_` (lines 151-166); finally bind the `createBlockFunc_` handler on
the rectangle and push it (lines 167-168). -/
def showStep (c : Nat) (entry : Bool) (st : PanelState) (ib : Nat × SBlock) : PanelState :=
  let i := ib.1
  let b := ib.2
  let st :=
    { st with
      buttons_ := st.buttons_ ++ [(⟨c, i⟩ : HitRect)]
      topBlocks := st.topBlocks ++ [(st.panelWs, b)] }
  let st :=
    if b.addable then
      { st with
        listeners_ := st.listeners_ ++ [(⟨c, i, .blockMouseDownL⟩ : Listener)]
        bound := st.bound ++ [(⟨c, i, .blockMouseDownL⟩ : Listener)] }
    else st
  let st :=
    if entry && decide (b.btype ∈ entryTypes) then
      { st with bound := st.bound ++ [(⟨c, i, .entryL⟩ : Listener)] }
    else st
  { st with
    listeners_ := st.listeners_ ++ [(⟨c, i, .createBlockL⟩ : Listener)]
    bound := st.bound ++ [(⟨c, i, .createBlockL⟩ : Listener)] }

/-- `Blockly.BlockMenu.prototype.show`, lines 77-181, restricted to the
listener/button/block lifecycle: it first calls `this.hide()` (line 78),
then runs the per-block loop, then binds `reflowWrapper_` (lines 178-179).
`c` tags this invocation, `entry` models `typeof(Entry) == "object"`.
(Named `showMenu` because `show` is reserved in Lean.) -/
def showMenu (c : Nat) (entry : Bool) (blocks : List SBlock) (st : PanelState) : PanelState :=
  let st := hide st
  let st := blocks.enum.foldl (showStep c entry) st
  { st with
    reflowWrapper_ := some ⟨c, 0, .reflowL⟩
    bound := st.bound ++ [(⟨c, 0, .reflowL⟩ : Listener)] }

/-- The listeners pushed onto `listeners_` for block `b` at index `i` by the
loop body of `show`: the `blockMouseDown_` handler when the block is addable
(lines 147-150) and the `createBlockFunc_` handler on the hit-region
(lines 167-168). -/
def trackedFor (c i : Nat) (b : SBlock) : List Listener :=
  (if b.addable then [(⟨c, i, .blockMouseDownL⟩ : Listener)] else []) ++
    [(⟨c, i, .createBlockL⟩ : Listener)]

/-- All listeners bound by the loop body of `show` for block `b` at index
`i`: the tracked ones plus, under Entry for the five special types, the
container callback that is bound WITHOUT being pushed onto `listeners_`
(lines 151-166). -/
def boundFor (c : Nat) (entry : Bool) (i : Nat) (b : SBlock) : List Listener :=
  (if b.addable then [(⟨c, i, .blockMouseDownL⟩ : Listener)] else []) ++
    (if entry && decide (b.btype ∈ entryTypes) then [(⟨c, i, .entryL⟩ : Listener)] else []) ++
    [(⟨c, i, .createBlockL⟩ : Listener)]

/-- The listeners pushed onto `listeners_` over a whole run of the loop. -/
def trackedAll (c : Nat) : List (Nat × SBlock) → List Listener
  | [] => []
  | ib :: rest => trackedFor c ib.1 ib.2 ++ trackedAll c rest

/-- All listeners bound over a whole run of the loop. -/
def boundAll (c : Nat) (entry : Bool) : List (Nat × SBlock) → List Listener
  | [] => []
  | ib :: rest => boundFor c entry ib.1 ib.2 ++ boundAll c entry rest

/-! ## Theorems -/

/-- C8: whenever `setMetrics_` is called with a ratio object whose `y` field
is a number, the workspace's `scrollY` is set to
`-contentHeight * y - contentTop` (with `contentHeight` and `contentTop`
taken from the current metrics) and the canvas is translated vertically to
`scrollY + absoluteTop`, so the rendered canvas offset tracks the scrollbar
ratio. -/
theorem C8_setMetrics_tracks_ratio (view : ViewRect) (bbox : Except Unit BBox)
    (y scrollY : ℚ) :
    (setMetrics_ view bbox (some y) scrollY).1 =
      -(getMetrics_ view scrollY bbox).contentHeight * y -
        (getMetrics_ view scrollY bbox).contentTop ∧
    (setMetrics_ view bbox (some y) scrollY).2 =
      (setMetrics_ view bbox (some y) scrollY).1 +
        (getMetrics_ view scrollY bbox).absoluteTop :=
  ⟨rfl, rfl⟩

/-- C10: if the triggering event is a right-button click or the origin block
is disabled, the handler returned by `createBlockFunc_` returns immediately:
nothing is created and no state is touched (`.ok none`).  Both guards sit
before the first effect (`Entry.dispatchEvent`, line 292-294). -/
theorem C10_guards_return_without_effect (ob : OriginBlock) (e : MEvent)
    (p q : Option Point) (h : e.rightButton = true ∨ ob.disabled = true) :
    createBlockFunc_ ob e p q = .ok none := by
  rcases h with h | h <;> simp [createBlockFunc_, h]

/-- Witness for `C10_guards_return_without_effect` at a concrete right-click
event. -/
theorem C10_guards_witness :
    ((⟨"mousedown", 0, 0, 2, true⟩ : MEvent).rightButton = true ∨
      (⟨false, none, "x"⟩ : OriginBlock).disabled = true) ∧
    createBlockFunc_ ⟨false, none, "x"⟩ ⟨"mousedown", 0, 0, 2, true⟩ none none = .ok none :=
  ⟨Or.inl rfl, C10_guards_return_without_effect _ _ _ _ (Or.inl rfl)⟩

/-- C3 (code bug): after a left-button mouse-down on a panel block followed by
`terminateDrag_`, the wrappers and `startDownEvent_`/`startBlock_` are indeed
cleared, but `Blockly.BlockMenu.startblockMenu_` — the static recorded at
line 233 — is NOT cleared: `terminateDrag_` nulls the never-assigned
`startFlyout_` (line 427) instead.  Evaluated at the failing input. -/
theorem C3_terminateDrag_leaves_startblockMenu :
    (terminateDrag_ (blockMouseDown_ ⟨"mousedown", 50, 60, 0, false⟩ 1 2
        ⟨none, none, none, none, none, none⟩)).startDownEvent_ = none ∧
    (terminateDrag_ (blockMouseDown_ ⟨"mousedown", 50, 60, 0, false⟩ 1 2
        ⟨none, none, none, none, none, none⟩)).startBlock_ = none ∧
    (terminateDrag_ (blockMouseDown_ ⟨"mousedown", 50, 60, 0, false⟩ 1 2
        ⟨none, none, none, none, none, none⟩)).onMouseUpWrapper_ = none ∧
    (terminateDrag_ (blockMouseDown_ ⟨"mousedown", 50, 60, 0, false⟩ 1 2
        ⟨none, none, none, none, none, none⟩)).onMouseMoveWrapper_ = none ∧
    (terminateDrag_ (blockMouseDown_ ⟨"mousedown", 50, 60, 0, false⟩ 1 2
        ⟨none, none, none, none, none, none⟩)).startblockMenu_ = some 2 :=
  ⟨rfl, rfl, rfl, rfl, rfl⟩

/-- C6 counterexample: the component contains error handling besides the
creation-handler throws.  `getMetrics_` wraps the `getBBox()` call in
`try/catch` and RECOVERS from a failing query with an empty box, returning
ordinary metrics instead of halting — so "no other error handling exists in
the component" is false. -/
theorem C6_counterexample_getMetrics_recovers :
    getMetrics_ ⟨5, 7⟩ 3 (.error ()) = ⟨5, 7, 0, -3, 0, 0, 0⟩ := by
  simp [getMetrics_]

/-- C6 (amended): on a left-button event for an enabled origin block, the
creation handler halts with the string `'originBlock is not rendered.'` when
the origin's SVG root is absent, and with `'block is not rendered.'` when
either clone's SVG root is absent; the only other error handling in the
component is the `getMetrics_` catch that substitutes an empty bounding box
(see the counterexample). -/
theorem C6_amended_faults (ob : OriginBlock) (e : MEvent) (p q : Option Point)
    (hrb : e.rightButton = false) (hdis : ob.disabled = false) :
    (ob.svgRoot = none → createBlockFunc_ ob e p q = .error "originBlock is not rendered.") ∧
    (∀ xyOld, ob.svgRoot = some xyOld → p = none →
      createBlockFunc_ ob e p q = .error "block is not rendered.") ∧
    (∀ xyOld pn, ob.svgRoot = some xyOld → p = some pn → q = none →
      createBlockFunc_ ob e p q = .error "block is not rendered.") := by
  refine ⟨fun h => ?_, fun xyOld h hp => ?_, fun xyOld pn h hp hq => ?_⟩ <;>
    subst_vars <;> simp [createBlockFunc_, hrb, hdis, *]

/-- Witness for `C6_amended_faults`: an unrendered origin block faults with
`'originBlock is not rendered.'`. -/
theorem C6_amended_witness :
    (⟨"mousedown", 0, 0, 0, false⟩ : MEvent).rightButton = false ∧
    (⟨false, none, "x"⟩ : OriginBlock).disabled = false ∧
    createBlockFunc_ ⟨false, none, "x"⟩ ⟨"mousedown", 0, 0, 0, false⟩ none none =
      .error "originBlock is not rendered." :=
  ⟨rfl, rfl, (C6_amended_faults ⟨false, none, "x"⟩ ⟨"mousedown", 0, 0, 0, false⟩
    none none rfl rfl).1 rfl⟩

/-- C7: a left-click (or over-threshold drag, which invokes the same handler
on the recorded down event) on an enabled, rendered panel block clones the
block via its XML onto `Blockly.mainWorkspace`, places the main-workspace
copy at the screen-to-canvas translation `(x - 202, y + 33)` of the panel
block's on-screen position (and the menu-workspace copy exactly at that
position), records the drag start, attaches the stalker link, and starts a
drag by forwarding the event to `onMouseDown_`. -/
theorem C7_click_creates_copy_and_drags (ob : OriginBlock) (e : MEvent)
    (xyOld pNew pW : Point) (hrb : e.rightButton = false)
    (hdis : ob.disabled = false) (hroot : ob.svgRoot = some xyOld) :
    ∃ d : CreatedDrag,
      createBlockFunc_ ob e (some pNew) (some pW) = .ok (some d) ∧
      d.workspaceBlockXml = ob.xml ∧
      d.workspaceBlockPos = ⟨xyOld.x - 202, xyOld.y + 33⟩ ∧
      d.menuBlockPos = xyOld ∧
      d.stalkerAttached = true ∧
      d.mouseDownEvent = e ∧
      d.startDragX = xyOld.x - pW.x - 202 ∧
      d.startDragY = xyOld.y - pW.y + 33 := by
  obtain ⟨ox, oy⟩ := xyOld
  refine ⟨_, createBlockFunc_ok ob e ⟨ox, oy⟩ pNew pW hrb hdis hroot,
    rfl, ?_, ?_, rfl, rfl, rfl, rfl⟩ <;>
    · simp only [Point.mk.injEq]
      constructor <;> ring

/-- Witness for `C7_click_creates_copy_and_drags` at a concrete left click on
a rendered, enabled block. -/
theorem C7_click_witness :
    (⟨"mousedown", 7, 8, 0, false⟩ : MEvent).rightButton = false ∧
    (⟨false, some ⟨300, 40⟩, "b"⟩ : OriginBlock).disabled = false ∧
    (⟨false, some ⟨300, 40⟩, "b"⟩ : OriginBlock).svgRoot = some ⟨300, 40⟩ ∧
    ∃ d : CreatedDrag,
      createBlockFunc_ ⟨false, some ⟨300, 40⟩, "b"⟩ ⟨"mousedown", 7, 8, 0, false⟩
        (some ⟨1, 2⟩) (some ⟨3, 4⟩) = .ok (some d) ∧
      d.workspaceBlockXml = "b" ∧
      d.workspaceBlockPos = ⟨(300 : ℚ) - 202, (40 : ℚ) + 33⟩ ∧
      d.menuBlockPos = ⟨300, 40⟩ ∧
      d.stalkerAttached = true ∧
      d.mouseDownEvent = ⟨"mousedown", 7, 8, 0, false⟩ ∧
      d.startDragX = (300 : ℚ) - 3 - 202 ∧
      d.startDragY = (40 : ℚ) - 4 + 33 :=
  ⟨rfl, rfl, rfl, C7_click_creates_copy_and_drags ⟨false, some ⟨300, 40⟩, "b"⟩
    ⟨"mousedown", 7, 8, 0, false⟩ ⟨300, 40⟩ ⟨1, 2⟩ ⟨3, 4⟩ rfl rfl rfl⟩

/-- C2 counterexample: a pointer-move whose Euclidean distance from the
recorded down position strictly exceeds the threshold creates NOTHING when it
matches the rogue-touch signature (`type == 'mousemove' && clientX <= 1 &&
clientY == 0 && button == 0`, lines 252-261): with threshold 5 and down
position `(100, 0)`, the move to `(0, 0)` is 100 pixels away yet is ignored,
refuting the claimed "if and only if". -/
theorem C2_counterexample_rogue_move_ignored :
    onMouseMove_ 5 ⟨"mousedown", 100, 0, 0, false⟩ ⟨"mousemove", 0, 0, 0, false⟩
        ⟨false, some ⟨0, 0⟩, "x"⟩ (some ⟨0, 0⟩) (some ⟨0, 0⟩) = .ok none ∧
    dragDistSq ⟨"mousedown", 100, 0, 0, false⟩ ⟨"mousemove", 0, 0, 0, false⟩ >
      (5 : Int) ^ 2 := by
  constructor
  · rfl
  · decide

/-- C2 (amended): during a pending drag recorded by a left-button
mouse-down on an enabled, rendered panel block, a pointer-move event causes a
real block to be created if and only if it does NOT match the rogue-touch
signature and the Euclidean distance between the move's client position and
the recorded down position strictly exceeds `Blockly.DRAG_RADIUS`
(equivalently, the squared distance exceeds the squared radius); rogue-matching
moves and moves at or below the threshold create nothing.  Creation runs on
the recorded mouse-down event. -/
theorem C2_amended_threshold (dragRadius : Nat) (s e : MEvent) (ob : OriginBlock)
    (xyOld pNew pW : Point) (hrb : s.rightButton = false)
    (hdis : ob.disabled = false) (hroot : ob.svgRoot = some xyOld) :
    (∃ d, onMouseMove_ dragRadius s e ob (some pNew) (some pW) = .ok (some d)) ↔
      isRogueMove e = false ∧ dragDistSq s e > (dragRadius : Int) ^ 2 := by
  cases hR : isRogueMove e with
  | true => simp [onMouseMove_, hR]
  | false =>
    by_cases hd : dragDistSq s e > (dragRadius : Int) ^ 2
    · simp [onMouseMove_, hR, hd, createBlockFunc_ok ob s xyOld pNew pW hrb hdis hroot]
    · simp [onMouseMove_, hR, hd]

/-- Witness for `C2_amended_threshold` at a concrete over-threshold,
non-rogue move. -/
theorem C2_amended_witness :
    (⟨"mousedown", 0, 0, 0, false⟩ : MEvent).rightButton = false ∧
    (⟨false, some ⟨9, 9⟩, "x"⟩ : OriginBlock).disabled = false ∧
    (⟨false, some ⟨9, 9⟩, "x"⟩ : OriginBlock).svgRoot = some ⟨9, 9⟩ ∧
    ((∃ d, onMouseMove_ 5 ⟨"mousedown", 0, 0, 0, false⟩ ⟨"mousemove", 10, 0, 0, false⟩
        ⟨false, some ⟨9, 9⟩, "x"⟩ (some ⟨0, 0⟩) (some ⟨0, 0⟩) = .ok (some d)) ↔
      isRogueMove ⟨"mousemove", 10, 0, 0, false⟩ = false ∧
        dragDistSq ⟨"mousedown", 0, 0, 0, false⟩ ⟨"mousemove", 10, 0, 0, false⟩ >
          (5 : Int) ^ 2) :=
  ⟨rfl, rfl, rfl, C2_amended_threshold 5 ⟨"mousedown", 0, 0, 0, false⟩
    ⟨"mousemove", 10, 0, 0, false⟩ ⟨false, some ⟨9, 9⟩, "x"⟩ ⟨9, 9⟩ ⟨0, 0⟩ ⟨0, 0⟩
    rfl rfl rfl⟩

/-- C5 counterexample: `reflow` does NOT reposition hit-regions when the
newly computed width equals the stored `width_`.  With margins 8/20/15
(`CORNER_RADIUS`, `TAB_WIDTH`, `scrollbarThickness`) a lone block of width 10
gives a panel width of `10 + 8 + 20 + 4 + 15 = 57`; starting from
`width_ = 57` and a stale hit-region `⟨1, 1, 0, 0⟩` that does not match the
block's bounding box `⟨10, 5, 3, 4⟩`, `reflow` returns the state unchanged,
refuting the "including in the case where the newly computed width equals the
previously stored width" part of the claim. -/
theorem C5_counterexample_equal_width_skips :
    reflow ⟨8, 20, 15, false⟩ ⟨57, [⟨10, 5, 3, 4, some ⟨1, 1, 0, 0⟩⟩]⟩ =
      ⟨57, [⟨10, 5, 3, 4, some ⟨1, 1, 0, 0⟩⟩]⟩ ∧
    (⟨10, 5, 3, 4, some ⟨1, 1, 0, 0⟩⟩ : RBlock).rect ≠
      some ⟨(⟨10, 5, 3, 4, some ⟨1, 1, 0, 0⟩⟩ : RBlock).width,
            (⟨10, 5, 3, 4, some ⟨1, 1, 0, 0⟩⟩ : RBlock).height,
            (⟨10, 5, 3, 4, some ⟨1, 1, 0, 0⟩⟩ : RBlock).x,
            (⟨10, 5, 3, 4, some ⟨1, 1, 0, 0⟩⟩ : RBlock).y⟩ := by
  constructor
  · rw [reflow]
    norm_num [reflowWidth]
  · norm_num

/-- C5 (amended): `reflow` computes the panel width as the maximum block
width plus the fixed margins `CORNER_RADIUS + TAB_WIDTH + CORNER_RADIUS/2 +
scrollbarThickness`; when this differs from the previously stored width it
stores the new width and repositions every block's hit-region to that block's
bounding box (with the x position mirrored when right-to-left mode is
active); when the two widths are equal it leaves the state untouched. -/
theorem C5_amended_reflow (env : ReflowEnv) (st : FlyoutState) :
    (st.width_ ≠ reflowWidth env st.blocks →
      (reflow env st).width_ = reflowWidth env st.blocks ∧
      (reflow env st).blocks =
        st.blocks.map (reflowBlock env (reflowWidth env st.blocks))) ∧
    (st.width_ = reflowWidth env st.blocks → reflow env st = st) ∧
    (∀ w b r, b.rect = some r →
      (reflowBlock env w b).rect =
        some ⟨b.width, b.height,
          (if env.rtl then w - env.cornerRadius - env.tabWidth - b.width else b.x),
          b.y⟩) := by
  refine ⟨fun h => ?_, fun h => ?_, fun w b r hb => ?_⟩
  · rw [reflow]
    simp [h]
  · rw [reflow]
    simp [h]
  · cases hr : env.rtl
    · simp [reflowBlock, hr, hb]
    · simp [reflowBlock, hr, hb, RRect.mk.injEq]

/-- Witness for `C5_amended_reflow`: a state whose stored width differs from
the computed width gets the new width stored and the hit-region moved onto
the block's bounding box. -/
theorem C5_amended_witness :
    (⟨0, [⟨10, 5, 3, 4, some ⟨1, 1, 0, 0⟩⟩]⟩ : FlyoutState).width_ ≠
      reflowWidth ⟨8, 20, 15, false⟩
        (⟨0, [⟨10, 5, 3, 4, some ⟨1, 1, 0, 0⟩⟩]⟩ : FlyoutState).blocks ∧
    ((reflow ⟨8, 20, 15, false⟩ ⟨0, [⟨10, 5, 3, 4, some ⟨1, 1, 0, 0⟩⟩]⟩).width_ =
      reflowWidth ⟨8, 20, 15, false⟩
        (⟨0, [⟨10, 5, 3, 4, some ⟨1, 1, 0, 0⟩⟩]⟩ : FlyoutState).blocks ∧
     (reflow ⟨8, 20, 15, false⟩ ⟨0, [⟨10, 5, 3, 4, some ⟨1, 1, 0, 0⟩⟩]⟩).blocks =
      (⟨0, [⟨10, 5, 3, 4, some ⟨1, 1, 0, 0⟩⟩]⟩ : FlyoutState).blocks.map
        (reflowBlock ⟨8, 20, 15, false⟩
          (reflowWidth ⟨8, 20, 15, false⟩
            (⟨0, [⟨10, 5, 3, 4, some ⟨1, 1, 0, 0⟩⟩]⟩ : FlyoutState).blocks))) :=
  ⟨by norm_num [reflowWidth],
    (C5_amended_reflow ⟨8, 20, 15, false⟩
      ⟨0, [⟨10, 5, 3, 4, some ⟨1, 1, 0, 0⟩⟩]⟩).1 (by norm_num [reflowWidth])⟩

/-- Each iteration of the layout loop follows the closed-form gap rules:
position `(xPos b, cursorY + leadGap b)` and cursor advance
`leadGap b + trailGap b + height + gap`. -/
lemma layoutStep_eq (b : LBlock) (gap c : ℚ) :
    layoutStep b gap c =
      ((xPos b, c + leadGap b), c + leadGap b + trailGap b + b.height + gap) := by
  rcases b with ⟨o, p, n, h⟩
  cases o <;> cases p <;> cases n <;>
    · simp only [layoutStep, xPos, leadGap, trailGap, Bool.not_true, Bool.not_false,
        Bool.true_and, Bool.false_and, Bool.and_true, Bool.and_false, if_true, if_false,
        Prod.mk.injEq]
      norm_num
      try ring

lemma layoutFrom_eq_closed :
    ∀ (bs : List (LBlock × ℚ)) (c : ℚ), layoutFrom bs c = layoutClosed bs c
  | [], _ => rfl
  | (b, gap) :: rest, c => by
    simp only [layoutFrom, layoutClosed, layoutStep_eq]
    exact congrArg _ (layoutFrom_eq_closed rest _)

lemma leadGap_nonneg (b : LBlock) : 0 ≤ leadGap b := by
  unfold leadGap
  split
  · norm_num
  · split <;> norm_num

lemma trailGap_nonneg (b : LBlock) : 0 ≤ trailGap b := by
  unfold trailGap
  split <;> norm_num

/-- Monotonicity of the closed-form layout: with positive heights and
nonnegative gaps, successive y positions strictly increase (and all lie at or
above the starting cursor). -/
lemma layoutClosed_mono :
    ∀ (bs : List (LBlock × ℚ)) (c : ℚ),
      (∀ p ∈ bs, 0 < p.1.height ∧ 0 ≤ p.2) →
      List.Chain' (· < ·) ((layoutClosed bs c).map Prod.snd) ∧
      ∀ y ∈ (layoutClosed bs c).map Prod.snd, c ≤ y
  | [], c, _ => ⟨List.chain'_nil, by simp [layoutClosed]⟩
  | (b, gap) :: rest, c, h => by
    have hb := h (b, gap) (List.mem_cons_self _ _)
    have ih := layoutClosed_mono rest (c + leadGap b + trailGap b + b.height + gap)
      (fun p hp => h p (List.mem_cons_of_mem _ hp))
    have hlt : c + leadGap b < c + leadGap b + trailGap b + b.height + gap := by
      have := trailGap_nonneg b
      have := hb.1
      have := hb.2
      linarith
    constructor
    · rw [layoutClosed]
      simp only [List.map_cons]
      rw [List.chain'_cons']
      refine ⟨fun y hy => ?_, ih.1⟩
      have hy' := ih.2 y (List.mem_of_mem_head? hy)
      linarith
    · rw [layoutClosed]
      simp only [List.map_cons, List.mem_cons]
      rintro y (rfl | hy)
      · have := leadGap_nonneg b
        linarith
      · have hy' := ih.2 y hy
        have := leadGap_nonneg b
        have := trailGap_nonneg b
        have := hb.1
        have := hb.2
        linarith

/-- C4 counterexample: a block with an output connection (and neither a
previous nor a next connection, as output blocks have) is placed at
`y = 10` by the code — it gets NO leading gap (lines 124-132 take the output
branch and leave `cursorY` alone) — whereas the claim's gap rule ("each block
lacking a previous connection gets an extra 10 units of leading gap") places
it at `y = 20`. -/
theorem C4_counterexample_output_block_gap :
    layout [(⟨true, false, false, 20⟩, 0)] = [((20 : ℚ), (10 : ℚ))] ∧
    claimedLayout [(⟨true, false, false, 20⟩, 0)] = [((20 : ℚ), (20 : ℚ))] := by
  constructor
  · norm_num [layout, layoutFrom, layoutStep]
  · norm_num [claimedLayout, claimedLayoutFrom, xPos, claimedLeadGap]

/-- C4 (amended): `show` lays blocks out top-to-bottom from an initial cursor
y of 10; each block with an output connection is shifted right by half its
height and gets NO leading gap; each other block lacking a previous
connection gets a 10-unit leading gap, the rest get 7; every block lacking
both previous and next connections (output blocks included) gets a 10-unit
trailing gap; the cursor then advances by the block's height plus its
per-block gap — and, for positive heights and nonnegative gaps, successive
blocks occupy strictly increasing y positions. -/
theorem C4_layout_amended (bs : List (LBlock × ℚ)) :
    layout bs = layoutClosed bs 10 ∧
    ((∀ p ∈ bs, 0 < p.1.height ∧ 0 ≤ p.2) →
      List.Chain' (· < ·) ((layout bs).map Prod.snd)) := by
  refine ⟨layoutFrom_eq_closed bs 10, fun h => ?_⟩
  rw [layout, layoutFrom_eq_closed]
  exact (layoutClosed_mono bs 10 h).1

/-- Witness for `C4_layout_amended` on a concrete two-block list satisfying
the positivity hypothesis. -/
theorem C4_layout_witness :
    (∀ p ∈ [((⟨true, false, false, 20⟩ : LBlock), (0 : ℚ)),
            ((⟨false, true, true, 30⟩ : LBlock), (0 : ℚ))],
      0 < p.1.height ∧ 0 ≤ p.2) ∧
    List.Chain' (· < ·)
      ((layout [((⟨true, false, false, 20⟩ : LBlock), (0 : ℚ)),
                ((⟨false, true, true, 30⟩ : LBlock), (0 : ℚ))]).map Prod.snd) :=
  ⟨by decide,
    (C4_layout_amended [((⟨true, false, false, 20⟩ : LBlock), (0 : ℚ)),
      ((⟨false, true, true, 30⟩ : LBlock), (0 : ℚ))]).2 (by decide)⟩

lemma mem_unbind {x l : Listener} {B : List Listener} :
    x ∈ unbind l B ↔ x ∈ B ∧ x ≠ l := by
  simp [unbind]

lemma mem_foldl_unbind :
    ∀ (L B : List Listener) (x : Listener),
      x ∈ L.foldl (fun acc l => unbind l acc) B ↔ x ∈ B ∧ x ∉ L
  | [], B, x => by simp
  | l :: L, B, x => by
    rw [List.foldl_cons, mem_foldl_unbind L (unbind l B) x, mem_unbind]
    simp only [List.mem_cons, not_or]
    tauto

lemma mem_hideBound_aux (L B : List Listener) (r : Option Listener) (x : Listener)
    (hx : x ∈ (match r with
      | some w => unbind w (L.foldl (fun acc l => unbind l acc) B)
      | none => L.foldl (fun acc l => unbind l acc) B)) :
    x ∈ B ∧ x ∉ L ∧ ∀ w, r = some w → x ≠ w := by
  cases r with
  | none =>
    have h := (mem_foldl_unbind L B x).1 hx
    exact ⟨h.1, h.2, fun w hw => by cases hw⟩
  | some w =>
    have hx2 := mem_unbind.1 hx
    have h := (mem_foldl_unbind L B x).1 hx2.1
    refine ⟨h.1, h.2, fun w' hw' => ?_⟩
    injection hw' with hww
    rw [← hww]
    exact hx2.2

/-- Membership after `hide`'s unbinding: a listener still bound after the
unbind sequence was bound before, is not recorded in `listeners_`, and is not
the reflow wrapper. -/
lemma mem_hideBound {st : PanelState} {x : Listener} (hx : x ∈ hideBound st) :
    x ∈ st.bound ∧ x ∉ st.listeners_ ∧
      ∀ w, st.reflowWrapper_ = some w → x ≠ w :=
  mem_hideBound_aux st.listeners_ st.bound st.reflowWrapper_ x hx

/-- The net effect of one iteration of `show`'s loop body on the panel
state. -/
lemma showStep_eq (c : Nat) (entry : Bool) (st : PanelState) (i : Nat) (b : SBlock) :
    showStep c entry st (i, b) =
      { st with
        buttons_ := st.buttons_ ++ [⟨c, i⟩]
        topBlocks := st.topBlocks ++ [(st.panelWs, b)]
        listeners_ := st.listeners_ ++ trackedFor c i b
        bound := st.bound ++ boundFor c entry i b } := by
  unfold showStep trackedFor boundFor
  cases hb : b.addable <;> cases he : entry && decide (b.btype ∈ entryTypes) <;>
    simp [hb, he]

/-- The net effect of the whole loop of `show` on the panel state. -/
lemma foldl_showStep_eq (c : Nat) (entry : Bool) :
    ∀ (ibs : List (Nat × SBlock)) (st : PanelState),
      ibs.foldl (showStep c entry) st =
        { st with
          buttons_ := st.buttons_ ++ ibs.map (fun p => (⟨c, p.1⟩ : HitRect))
          topBlocks := st.topBlocks ++ ibs.map (fun p => (st.panelWs, p.2))
          listeners_ := st.listeners_ ++ trackedAll c ibs
          bound := st.bound ++ boundAll c entry ibs }
  | [], st => by simp [trackedAll, boundAll]
  | ib :: rest, st => by
    rcases ib with ⟨i, b⟩
    rw [List.foldl_cons, showStep_eq, foldl_showStep_eq c entry rest]
    simp [trackedAll, boundAll, List.append_assoc]

/-- Full characterisation of `showMenu`: the state after `show` has exactly
the hit-regions and tracked listeners of this call, the menu blocks of this
call, the reflow wrapper of this call, and a bound set consisting of whatever
`hide` left bound, the listeners bound by this call's loop, and the reflow
wrapper. -/
lemma showMenu_eq (c : Nat) (entry : Bool) (blocks : List SBlock) (st : PanelState) :
    showMenu c entry blocks st =
      { listeners_ := trackedAll c blocks.enum
        buttons_ := blocks.enum.map (fun p => (⟨c, p.1⟩ : HitRect))
        topBlocks := st.topBlocks.filter (fun wb => wb.1 ≠ st.panelWs) ++
          blocks.enum.map (fun p => (st.panelWs, p.2))
        panelWs := st.panelWs
        reflowWrapper_ := some ⟨c, 0, .reflowL⟩
        bound := hideBound st ++ boundAll c entry blocks.enum ++
          [(⟨c, 0, .reflowL⟩ : Listener)] } := by
  simp only [showMenu, hide]
  rw [foldl_showStep_eq]
  simp [List.append_assoc]

lemma mem_trackedFor {c i : Nat} {b : SBlock} {l : Listener}
    (h : l ∈ trackedFor c i b) : l.call = c := by
  unfold trackedFor at h
  rcases List.mem_append.1 h with h | h
  · cases hb : b.addable
    · rw [hb] at h
      simp at h
    · rw [hb] at h
      simp only [if_true, List.mem_singleton] at h
      rw [h]
  · rw [List.mem_singleton] at h
    rw [h]

lemma trackedAll_call {c : Nat} :
    ∀ {ibs : List (Nat × SBlock)} {l : Listener}, l ∈ trackedAll c ibs → l.call = c
  | [], l, h => by simp [trackedAll] at h
  | ib :: rest, l, h => by
    rw [trackedAll, List.mem_append] at h
    rcases h with h | h
    · exact mem_trackedFor h
    · exact trackedAll_call h

lemma mem_boundFor {c : Nat} {entry : Bool} {i : Nat} {b : SBlock} {l : Listener}
    (h : l ∈ boundFor c entry i b) : l ∈ trackedFor c i b ∨ l.kind = .entryL := by
  unfold boundFor at h
  unfold trackedFor
  rcases List.mem_append.1 h with h1 | h1
  · rcases List.mem_append.1 h1 with h2 | h2
    · exact Or.inl (List.mem_append_left _ h2)
    · cases he : entry && decide (b.btype ∈ entryTypes)
      · rw [he] at h2
        simp at h2
      · rw [he] at h2
        simp only [if_true, List.mem_singleton] at h2
        rw [h2]
        exact Or.inr rfl
  · exact Or.inl (List.mem_append_right _ h1)

lemma mem_boundAll {c : Nat} {entry : Bool} :
    ∀ {ibs : List (Nat × SBlock)} {l : Listener},
      l ∈ boundAll c entry ibs → l ∈ trackedAll c ibs ∨ l.kind = .entryL
  | [], l, h => by simp [boundAll] at h
  | ib :: rest, l, h => by
    rw [boundAll, List.mem_append] at h
    rw [trackedAll, List.mem_append]
    rcases h with h | h
    · rcases mem_boundFor h with h | h
      · exact Or.inl (Or.inl h)
      · exact Or.inr h
    · rcases mem_boundAll h with h | h
      · exact Or.inl (Or.inr h)
      · exact Or.inr h

/-- C9: `show` begins with `hide()`, so after any `show` in any sequence of
calls, `buttons_` holds exactly one hit-region per block laid out by that
call (in order) and `listeners_` holds only listeners registered by that
call; nothing accumulates from earlier calls. -/
theorem C9_show_resets_per_call (st : PanelState) (c : Nat) (entry : Bool)
    (blocks : List SBlock) :
    (showMenu c entry blocks st).buttons_ =
      (List.range blocks.length).map (fun i => (⟨c, i⟩ : HitRect)) ∧
    ∀ l ∈ (showMenu c entry blocks st).listeners_, l.call = c := by
  rw [showMenu_eq]
  constructor
  · have h1 : blocks.enum.map (fun p => (⟨c, p.1⟩ : HitRect)) =
        (blocks.enum.map Prod.fst).map (fun i => (⟨c, i⟩ : HitRect)) := by
      rw [List.map_map]
      rfl
    have h2 := List.enum_map_fst blocks
    exact h1.trans (by rw [h2])
  · exact fun l hl => trackedAll_call hl

/-- C1 counterexample: after `show` followed by `hide` on a fresh panel with
a single `make_variable` block under Entry, the Entry-specific mousedown
handler bound at lines 151-153 is STILL bound — `show` binds it without
pushing it onto `listeners_`, so `hide` (which only unbinds what `listeners_`
records) never detaches it.  This refutes "every event listener registered by
show() has been detached ... includes the Entry-specific mousedown
handlers". -/
theorem C1_counterexample_entry_listener_survives :
    (hide (showMenu 0 true [⟨"make_variable", true⟩]
        ⟨[], [], [], 0, none, []⟩)).bound = [⟨0, 0, .entryL⟩] ∧
    (hide (showMenu 0 true [⟨"make_variable", true⟩]
        ⟨[], [], [], 0, none, []⟩)).listeners_ = [] := by
  constructor
  · decide
  · decide

/-- C1 (amended): after `hide`, `listeners_` and `buttons_` are empty, every
block whose workspace is the panel's internal workspace has been disposed,
and every listener RECORDED IN `listeners_` by the preceding `show` (the
`blockMouseDown_` and `createBlockFunc_` handlers) plus the reflow wrapper
has been detached; the Entry-specific mousedown handlers, which `show` binds
without recording, are the only listeners of that call that may remain
bound. -/
theorem C1_hide_amended (st : PanelState) (c : Nat) (entry : Bool)
    (blocks : List SBlock) (hfresh : ∀ l ∈ st.bound, l.call ≠ c) :
    (hide (showMenu c entry blocks st)).listeners_ = [] ∧
    (hide (showMenu c entry blocks st)).buttons_ = [] ∧
    (∀ wb ∈ (hide (showMenu c entry blocks st)).topBlocks,
      wb.1 ≠ (hide (showMenu c entry blocks st)).panelWs) ∧
    ∀ l ∈ (hide (showMenu c entry blocks st)).bound,
      l.call = c → l.kind = .entryL := by
  refine ⟨rfl, rfl, ?_, ?_⟩
  · intro wb hwb
    have h := List.of_mem_filter hwb
    simpa using h
  · intro l hl hcall
    rw [showMenu_eq] at hl
    simp only [hide] at hl
    have h3 := mem_hideBound hl
    have hnw : l ≠ ⟨c, 0, .reflowL⟩ := h3.2.2 _ rfl
    rcases List.mem_append.1 h3.1 with h4 | h4
    · rcases List.mem_append.1 h4 with h5 | h5
      · exact absurd hcall (hfresh l (mem_hideBound h5).1)
      · rcases mem_boundAll h5 with h6 | h6
        · exact absurd h6 h3.2.1
        · exact h6
    · rw [List.mem_singleton] at h4
      exact absurd h4 hnw

/-- Witness for `C1_hide_amended` on a fresh panel showing one
`make_variable` block under Entry. -/
theorem C1_hide_amended_witness :
    (∀ l ∈ (⟨[], [], [], 0, none, []⟩ : PanelState).bound, l.call ≠ 0) ∧
    ((hide (showMenu 0 true [⟨"make_variable", true⟩]
        ⟨[], [], [], 0, none, []⟩)).listeners_ = [] ∧
     (hide (showMenu 0 true [⟨"make_variable", true⟩]
        ⟨[], [], [], 0, none, []⟩)).buttons_ = [] ∧
     (∀ wb ∈ (hide (showMenu 0 true [⟨"make_variable", true⟩]
        ⟨[], [], [], 0, none, []⟩)).topBlocks,
       wb.1 ≠ (hide (showMenu 0 true [⟨"make_variable", true⟩]
        ⟨[], [], [], 0, none, []⟩)).panelWs) ∧
     ∀ l ∈ (hide (showMenu 0 true [⟨"make_variable", true⟩]
        ⟨[], [], [], 0, none, []⟩)).bound,
       l.call = 0 → l.kind = .entryL) :=
  ⟨by simp, C1_hide_amended ⟨[], [], [], 0, none, []⟩ 0 true
    [⟨"make_variable", true⟩] (by simp)⟩

end BlockMenu
